import Mathlib

/-!
Verification of the GitLab-webhook Lambda handler (src/lambda.py).

The Python source is shallowly embedded below.  JSON documents are modelled by
the inductive type Json; the two calls to json.loads are modelled by the
executable parser parseJson; json.dumps is modelled by carrying the Json value
itself in the response body (dumps is injective on the bodies produced here).
The AWS Secrets Manager client is a function String -> Option String
(ResourceNotFoundException becomes none); the CodePipeline client is a
function from pipeline name and variable list to the returned execution id,
and every call made to it is accumulated in an explicit trace so that
"no pipeline was triggered" is a statement about that trace.
-/

namespace Webhook

/-- A JSON value.  Numbers keep their source lexeme: no claim depends on
numeric values, only on truthiness, which is decidable from the lexeme. -/
inductive Json where
  | null : Json
  | bool (b : Bool) : Json
  | num (lexeme : String) : Json
  | str (s : String) : Json
  | arr (elems : List Json) : Json
  | obj (fields : List (String × Json)) : Json

/-- The left brace character, written by code point. -/
def lbrace : Char := Char.ofNat 123

/-- The right brace character, written by code point. -/
def rbrace : Char := Char.ofNat 125

/-- The string consisting of a left and a right brace: the default used by
the source for a missing body and a missing LABEL_PIPELINE_MAPPING. -/
def emptyObjStr : String := "\x7b\x7d"

/-- JSON insignificant whitespace. -/
def isWs (c : Char) : Bool :=
  c = ' ' || c = '\t' || c = '\n' || c = '\r'

/-- Drop leading JSON whitespace. -/
def skipWs : List Char → List Char
  | [] => []
  | c :: cs => if isWs c then skipWs cs else c :: cs

/-- Cons a character onto the front of a string. -/
def strCons (c : Char) (s : String) : String := String.mk (c :: s.data)

/-- ASCII lowercasing of one character. -/
def lowerChar (c : Char) : Char :=
  if 'A' ≤ c ∧ c ≤ 'Z' then Char.ofNat (c.toNat + 32) else c

/-- Model of Python str.lower restricted to ASCII; every header name and
label in the claims is ASCII. -/
def lowerStr (s : String) : String := String.mk (s.data.map lowerChar)

/-- Value of a hexadecimal digit. -/
def hexVal (c : Char) : Option Nat :=
  if '0' ≤ c ∧ c ≤ '9' then some (c.toNat - '0'.toNat)
  else if 'a' ≤ c ∧ c ≤ 'f' then some (c.toNat - 'a'.toNat + 10)
  else if 'A' ≤ c ∧ c ≤ 'F' then some (c.toNat - 'A'.toNat + 10)
  else none

/-- Single-character JSON string escapes. -/
def escMap (c : Char) : Option Char :=
  if c = '"' then some '"'
  else if c = '\\' then some '\\'
  else if c = '/' then some '/'
  else if c = 'b' then some (Char.ofNat 8)
  else if c = 'f' then some (Char.ofNat 12)
  else if c = 'n' then some '\n'
  else if c = 'r' then some '\r'
  else if c = 't' then some '\t'
  else none

/-- Parse the body of a JSON string literal after the opening quote, up to and
including the closing quote.  Control characters are rejected, as Python json
does in its default strict mode.  Surrogate pairing of \uXXXX escapes is not
reproduced; no claim involves such input. -/
def parseStringBody : List Char → Option (String × List Char)
  | [] => none
  | c :: cs =>
    if c = '"' then some ("", cs)
    else if c = '\\' then
      match cs with
      | [] => none
      | 'u' :: h1 :: h2 :: h3 :: h4 :: cs5 =>
        match hexVal h1, hexVal h2, hexVal h3, hexVal h4 with
        | some a, some b, some d, some e =>
          (parseStringBody cs5).map
            (fun r => (strCons (Char.ofNat (a * 4096 + b * 256 + d * 16 + e)) r.1, r.2))
        | _, _, _, _ => none
      | e :: cs2 =>
        match escMap e with
        | some ch => (parseStringBody cs2).map (fun r => (strCons ch r.1, r.2))
        | none => none
    else if c.toNat < 32 then none
    else (parseStringBody cs).map (fun r => (strCons c r.1, r.2))

/-- Parse an optional fraction part, returning its characters and the rest. -/
def parseFrac : List Char → Option (List Char × List Char)
  | '.' :: r =>
    let fd := r.takeWhile Char.isDigit
    if fd.isEmpty then none else some ('.' :: fd, r.dropWhile Char.isDigit)
  | cs => some ([], cs)

/-- Parse an optional exponent part, returning its characters and the rest. -/
def parseExp : List Char → Option (List Char × List Char)
  | [] => some ([], [])
  | e :: r =>
    if e = 'e' ∨ e = 'E' then
      let (sgn, r1) :=
        match r with
        | c :: r2 => if c = '+' ∨ c = '-' then ([c], r2) else (([] : List Char), c :: r2)
        | [] => (([] : List Char), ([] : List Char))
      let ed := r1.takeWhile Char.isDigit
      if ed.isEmpty then none
      else some (e :: (sgn ++ ed), r1.dropWhile Char.isDigit)
    else some ([], e :: r)

/-- Parse a JSON number lexeme. -/
def parseNumber (cs : List Char) : Option (String × List Char) :=
  let (sgn, cs1) :=
    match cs with
    | '-' :: r => (['-'], r)
    | _ => (([] : List Char), cs)
  let intDigits := cs1.takeWhile Char.isDigit
  let cs2 := cs1.dropWhile Char.isDigit
  if intDigits.isEmpty then none
  else if intDigits.length > 1 ∧ intDigits.headD '0' = '0' then none
  else
    match parseFrac cs2 with
    | none => none
    | some (fr, cs3) =>
      match parseExp cs3 with
      | none => none
      | some (ex, cs4) => some (String.mk (sgn ++ intDigits ++ fr ++ ex), cs4)

mutual

/-- Parse one JSON value, fuel-bounded recursive descent. -/
def parseVal (fuel : Nat) (cs : List Char) : Option (Json × List Char) :=
  match fuel with
  | 0 => none
  | f + 1 =>
    match skipWs cs with
    | [] => none
    | c :: rest =>
      if c = lbrace then
        match skipWs rest with
        | [] => none
        | c2 :: rest2 =>
          if c2 = rbrace then some (Json.obj [], rest2)
          else parseMembers f (c2 :: rest2) []
      else if c = '[' then
        match skipWs rest with
        | ']' :: rest2 => some (Json.arr [], rest2)
        | cs2 => parseElems f cs2 []
      else if c = '"' then
        (parseStringBody rest).map (fun r => (Json.str r.1, r.2))
      else if c = 't' then
        match rest with
        | 'r' :: 'u' :: 'e' :: r => some (Json.bool true, r)
        | _ => none
      else if c = 'f' then
        match rest with
        | 'a' :: 'l' :: 's' :: 'e' :: r => some (Json.bool false, r)
        | _ => none
      else if c = 'n' then
        match rest with
        | 'u' :: 'l' :: 'l' :: r => some (Json.null, r)
        | _ => none
      else
        (parseNumber (c :: rest)).map (fun r => (Json.num r.1, r.2))

/-- Parse the members of a JSON object after its opening brace, given that the
object is not empty. -/
def parseMembers (fuel : Nat) (cs : List Char) (acc : List (String × Json)) :
    Option (Json × List Char) :=
  match fuel with
  | 0 => none
  | f + 1 =>
    match skipWs cs with
    | [] => none
    | c :: rest =>
      if c = '"' then
        match parseStringBody rest with
        | none => none
        | some (k, r1) =>
          match skipWs r1 with
          | ':' :: r2 =>
            match parseVal f r2 with
            | none => none
            | some (v, r3) =>
              match skipWs r3 with
              | ',' :: r4 => parseMembers f r4 (acc ++ [(k, v)])
              | c5 :: r5 =>
                if c5 = rbrace then some (Json.obj (acc ++ [(k, v)]), r5) else none
              | [] => none
          | _ => none
      else none

/-- Parse the elements of a JSON array after its opening bracket, given that
the array is not empty. -/
def parseElems (fuel : Nat) (cs : List Char) (acc : List Json) :
    Option (Json × List Char) :=
  match fuel with
  | 0 => none
  | f + 1 =>
    match parseVal f cs with
    | none => none
    | some (v, r1) =>
      match skipWs r1 with
      | ',' :: r2 => parseElems f r2 (acc ++ [v])
      | ']' :: r2 => some (Json.arr (acc ++ [v]), r2)
      | _ => none

end

/-- Model of Python json.loads: parse a complete JSON document.  Python also
accepts the extension literals NaN and Infinity, which this model rejects; no
claim involves them. -/
def parseJson (s : String) : Option Json :=
  match parseVal (s.length + 1) s.data with
  | none => none
  | some (j, rest) => if (skipWs rest).isEmpty then some j else none

/-- Member lookup on a JSON object, as Python dict.get on the dict produced by
json.loads: on duplicate keys the later member wins; on a non-object the
lookup yields none (the Python code would raise there, and no claim reaches
that case). -/
def Json.getField : Json → String → Option Json
  | Json.obj fields, k => fields.foldl (fun acc p => if p.1 = k then some p.2 else acc) none
  | _, _ => none

/-- Whether every digit of the mantissa of a JSON number lexeme is zero, i.e.
whether the number denotes zero. -/
def numIsZero (s : String) : Bool :=
  ((s.data.takeWhile (fun c => ¬(c = 'e' ∨ c = 'E'))).filter Char.isDigit).all (fun c => c = '0')

/-- Python truthiness of a JSON value: None, False, numeric zero, and empty
strings, lists and dicts are falsy. -/
def Json.truthy : Json → Bool
  | Json.null => false
  | Json.bool b => b
  | Json.num s => !numIsZero s
  | Json.str s => !s.isEmpty
  | Json.arr xs => !xs.isEmpty
  | Json.obj fs => !fs.isEmpty

/-- json.dumps of an optional string: Python None serialises as null. -/
def jsonOfOptStr : Option String → Json
  | none => Json.null
  | some s => Json.str s

/-- One merge-request label; the source reads label["title"] and lowercases
it, so only the title is consumed. -/
structure Label where
  title : String

/-- The project part of the payload, read as
payload.get("project", \x7b\x7d).get("path_with_namespace"). -/
structure Project where
  path_with_namespace : Option String

/-- The object_attributes part of the payload, read as
payload.get("object_attributes", \x7b\x7d).get("source_branch"). -/
structure ObjectAttributes where
  source_branch : Option String

/-- The decoded webhook payload, restricted to the fields the source consumes.
Fields of unexpected JSON shape are mapped to none by toPayload below; the
Python code would raise an uncaught AttributeError, TypeError or KeyError on
such shapes, and no claim exercises them. -/
structure Payload where
  object_kind : Option String
  project : Option Project
  object_attributes : Option ObjectAttributes
  labels : Option (List Label)

/-- Extract a JSON string, else nothing. -/
def asString : Json → Option String
  | Json.str s => some s
  | _ => none

/-- Build the typed payload view from a parsed JSON document. -/
def toPayload (j : Json) : Payload :=
  { object_kind := (j.getField "object_kind").bind asString
    project := (j.getField "project").map
      (fun pj => ⟨(pj.getField "path_with_namespace").bind asString⟩)
    object_attributes := (j.getField "object_attributes").map
      (fun oj => ⟨(oj.getField "source_branch").bind asString⟩)
    labels := (j.getField "labels").bind
      (fun lj =>
        match lj with
        | Json.arr xs => some (xs.filterMap (fun x => ((x.getField "title").bind asString).map Label.mk))
        | _ => none) }

/-- payload.get("project", \x7b\x7d).get("path_with_namespace") from
lambda.py line 28. -/
def projectPath (p : Payload) : Option String :=
  (p.project.getD ⟨none⟩).path_with_namespace

/-- The lowered header dict of lambda.py line 25, modelled extensionally by
its get: the value of the last header whose lowercased name is the key. -/
def headersLower (headers : List (String × String)) (k : String) : Option String :=
  headers.foldl (fun acc p => if lowerStr p.1 = k then some p.2 else acc) none

/-- get_project_token from lambda.py lines 9 to 19: a Secrets Manager lookup
under the key gitlab/\x7bproject\x7d/token, where ResourceNotFoundException
becomes None.  The store is the function parameter secrets. -/
def get_project_token (secrets : String → Option String) (project : String) : Option String :=
  secrets ("gitlab/" ++ project ++ "/token")

/-- verify_gitlab_signature from lambda.py lines 21 to 39.  The two Python
truthiness tests (if not project, if not expected_token) treat both an absent
value and an empty string as falsy, hence the explicit empty-string cases. -/
def verify_gitlab_signature (secrets : String → Option String) (payload : Payload)
    (headers : List (String × String)) : Bool × Option String :=
  let token := (headersLower headers "x-gitlab-token").getD ""
  match projectPath payload with
  | none => (false, some "No project info in payload")
  | some project =>
    if project = "" then (false, some "No project info in payload")
    else
      match get_project_token secrets project with
      | none => (false, some ("No token registered for project " ++ project))
      | some expected_token =>
        if expected_token = "" then
          (false, some ("No token registered for project " ++ project))
        else if token ≠ expected_token then (false, some "Invalid secret token")
        else (true, none)

/-- One pipeline variable, as passed to start_pipeline_execution; the branch
may be Python None when object_attributes.source_branch is absent. -/
structure Variable where
  name : String
  value : Option String

/-- A record of one start_pipeline_execution call made to the CodePipeline
backend: the pipeline name argument and the variables argument (the field is
named vars because variables is a Lean keyword). -/
structure TriggerCall where
  pipeline : Json
  vars : List Variable

/-- trigger_pipeline from lambda.py lines 41 to 52: calls the backend with
the pipeline name and the single SOURCE_BRANCH variable, returning the
execution id from the response together with the record of the call. -/
def trigger_pipeline (backend : Json → List Variable → String) (pipeline_name : Json)
    (branch_name : Option String) : String × TriggerCall :=
  (backend pipeline_name [⟨"SOURCE_BRANCH", branch_name⟩],
   ⟨pipeline_name, [⟨"SOURCE_BRANCH", branch_name⟩]⟩)

/-- One entry of the triggered_pipelines result list (lambda.py lines 97 to
101).  The pipeline field holds the raw mapping value. -/
structure TriggerResult where
  label : String
  pipeline : Json
  execution_id : String

/-- The JSON rendering of one triggered_pipelines entry. -/
def TriggerResult.toJson (r : TriggerResult) : Json :=
  Json.obj [("label", Json.str r.label), ("pipeline", r.pipeline),
            ("execution_id", Json.str r.execution_id)]

/-- The for-loop of lambda.py lines 93 to 101: for each lowered label title
in order, look the title up in the mapping; on a truthy value trigger the
pipeline and record one result entry, otherwise skip the label. -/
def dispatchLabels (backend : Json → List Variable → String) (mapping : Json)
    (source_branch : Option String) : List String → List TriggerResult × List TriggerCall
  | [] => ([], [])
  | label :: rest =>
    let tail := dispatchLabels backend mapping source_branch rest
    match Json.getField mapping label with
    | none => tail
    | some pipeline_name =>
      if pipeline_name.truthy then
        let r := trigger_pipeline backend pipeline_name source_branch
        (⟨label, pipeline_name, r.1⟩ :: tail.1, r.2 :: tail.2)
      else tail

/-- The lowered label titles of lambda.py line 76, in payload order. -/
def labelTitles (p : Payload) : List String :=
  (p.labels.getD []).map (fun l => lowerStr l.title)

/-- The source branch of lambda.py line 79:
payload.get("object_attributes", \x7b\x7d).get("source_branch"). -/
def sourceBranch (p : Payload) : Option String :=
  (p.object_attributes.getD ⟨none⟩).source_branch

/-- The transport envelope: a body string (absent when the event carries no
body key) and the header list. -/
structure Event where
  body : Option String
  headers : List (String × String)

/-- The handler response: status code, the JSON document whose dumps is the
body string, and the optional extra response headers. -/
structure Response where
  statusCode : Nat
  body : Json
  headers : Option (List (String × String))

/-- lambda_handler from lambda.py lines 55 to 114, returning the response
together with the trace of pipeline-trigger calls made.  The secret store and
the pipeline backend enter as function parameters. -/
def lambda_handler (secrets : String → Option String) (backend : Json → List Variable → String)
    (env : Option String) (event : Event) : Response × List TriggerCall :=
  match parseJson (event.body.getD emptyObjStr) with
  | none => (⟨400, Json.obj [("error", Json.str "Invalid JSON payload")], none⟩, [])
  | some payloadJson =>
    let payload := toPayload payloadJson
    let vr := verify_gitlab_signature secrets payload event.headers
    if !vr.1 then
      (⟨403, Json.obj [("error", jsonOfOptStr vr.2)], none⟩, [])
    else if payload.object_kind ≠ some "merge_request" then
      (⟨200, Json.obj [("message", Json.str "Not a merge request event")], none⟩, [])
    else
      match parseJson (env.getD emptyObjStr) with
      | none => (⟨500, Json.obj [("error", Json.str "Invalid LABEL_PIPELINE_MAPPING env var")], none⟩, [])
      | some label_pipeline_mapping =>
        let out := dispatchLabels backend label_pipeline_mapping (sourceBranch payload) (labelTitles payload)
        if out.1.isEmpty then
          (⟨200, Json.obj [("message", Json.str "No matching label for pipeline, skipped")],
            some [("Content-Type", "application/json")]⟩, out.2)
        else
          (⟨200, Json.obj [("triggered_pipelines", Json.arr (out.1.map TriggerResult.toJson))],
            some [("Content-Type", "application/json")]⟩, out.2)

/-!  Spec-side definitions: what one label contributes to the dispatch, and
the authentication function as the spec words it. -/

/-- What one lowered label title contributes to the dispatch: on a truthy
mapping value, the result entry and the trigger call; otherwise nothing. -/
def matchEntry (backend : Json → List Variable → String) (mapping : Json)
    (branch : Option String) (l : String) : Option (TriggerResult × TriggerCall) :=
  match Json.getField mapping l with
  | none => none
  | some v =>
    if v.truthy then
      some (⟨l, v, (trigger_pipeline backend v branch).1⟩, (trigger_pipeline backend v branch).2)
    else none

/-- Whether a recorded trigger call named exactly the pipeline P. -/
def TriggerCall.pipelineNamed (c : TriggerCall) (P : String) : Bool :=
  match c.pipeline with
  | Json.str s => s == P
  | _ => false

/-- Whether a lowered label title maps, in the configured mapping, to the
non-empty pipeline name P. -/
def mapsToName (mapping : Json) (P : String) (l : String) : Bool :=
  match Json.getField mapping l with
  | some (Json.str s) => s == P && !s.isEmpty
  | _ => false

/-- Authentication as claim C2 words it: absent path_with_namespace fails
with the no-project reason; an absent secret fails with the no-token reason;
otherwise success exactly on a case-sensitive full-string token match. -/
def authClaimed (secrets : String → Option String) (payload : Payload)
    (headers : List (String × String)) : Bool × Option String :=
  let token := (headersLower headers "x-gitlab-token").getD ""
  match projectPath payload with
  | none => (false, some "No project info in payload")
  | some project =>
    match secrets ("gitlab/" ++ project ++ "/token") with
    | none => (false, some ("No token registered for project " ++ project))
    | some expected =>
      if token = expected then (true, none)
      else (false, some "Invalid secret token")

/-- Authentication as claim C2 must be amended: a present but empty
path_with_namespace also fails with the no-project reason, and a registered
but empty secret also fails with the no-token reason, because the source
tests both with Python truthiness. -/
def authAmended (secrets : String → Option String) (payload : Payload)
    (headers : List (String × String)) : Bool × Option String :=
  let token := (headersLower headers "x-gitlab-token").getD ""
  match projectPath payload with
  | none => (false, some "No project info in payload")
  | some project =>
    if project = "" then (false, some "No project info in payload")
    else
      match secrets ("gitlab/" ++ project ++ "/token") with
      | none => (false, some ("No token registered for project " ++ project))
      | some expected =>
        if expected = "" then (false, some ("No token registered for project " ++ project))
        else if token = expected then (true, none)
        else (false, some "Invalid secret token")

/-!  Concrete fixtures used by witnesses and counterexamples.  They realise
the scenario of spec section 8: project g/p, registered secret secret123. -/

/-- A secret store holding secret123 for project g/p. -/
def fixSecrets : String → Option String :=
  fun k => if k = "gitlab/g/p/token" then some "secret123" else none

/-- A pipeline backend answering every start call with execution id eid-1. -/
def fixBackend : Json → List Variable → String := fun _ _ => "eid-1"

/-- The scenario merge-request body of spec section 8. -/
def mrBodyStr : String :=
  "\x7b\"object_kind\": \"merge_request\", \"project\": \x7b\"path_with_namespace\": \"g/p\"\x7d, \"object_attributes\": \x7b\"source_branch\": \"feature-x\"\x7d, \"labels\": [\x7b\"title\": \"Q1\"\x7d]\x7d"

/-- The parsed form of mrBodyStr. -/
def mrPayloadJson : Json :=
  Json.obj [("object_kind", Json.str "merge_request"),
            ("project", Json.obj [("path_with_namespace", Json.str "g/p")]),
            ("object_attributes", Json.obj [("source_branch", Json.str "feature-x")]),
            ("labels", Json.arr [Json.obj [("title", Json.str "Q1")]])]

/-- Headers carrying the correct token under mixed-case name. -/
def tokenHeaders : List (String × String) := [("X-Gitlab-Token", "secret123")]

/-- A merge-request body for project g/p with the two labels A and B. -/
def twoLabelBodyStr : String :=
  "\x7b\"object_kind\": \"merge_request\", \"project\": \x7b\"path_with_namespace\": \"g/p\"\x7d, \"object_attributes\": \x7b\"source_branch\": \"feature-x\"\x7d, \"labels\": [\x7b\"title\": \"A\"\x7d, \x7b\"title\": \"B\"\x7d]\x7d"

/-- A merge-request body for project g/p with the two labels C and D. -/
def dupLabelBodyStr : String :=
  "\x7b\"object_kind\": \"merge_request\", \"project\": \x7b\"path_with_namespace\": \"g/p\"\x7d, \"object_attributes\": \x7b\"source_branch\": \"feature-x\"\x7d, \"labels\": [\x7b\"title\": \"C\"\x7d, \x7b\"title\": \"D\"\x7d]\x7d"

/-- The parsed form of dupLabelBodyStr. -/
def dupPayloadJson : Json :=
  Json.obj [("object_kind", Json.str "merge_request"),
            ("project", Json.obj [("path_with_namespace", Json.str "g/p")]),
            ("object_attributes", Json.obj [("source_branch", Json.str "feature-x")]),
            ("labels", Json.arr [Json.obj [("title", Json.str "C")],
                                 Json.obj [("title", Json.str "D")]])]

/-- The parsed form of twoLabelBodyStr. -/
def twoLabelPayloadJson : Json :=
  Json.obj [("object_kind", Json.str "merge_request"),
            ("project", Json.obj [("path_with_namespace", Json.str "g/p")]),
            ("object_attributes", Json.obj [("source_branch", Json.str "feature-x")]),
            ("labels", Json.arr [Json.obj [("title", Json.str "A")],
                                 Json.obj [("title", Json.str "B")]])]

/-- A non-merge-request body for project g/p. -/
def noteBodyStr : String :=
  "\x7b\"object_kind\": \"note\", \"project\": \x7b\"path_with_namespace\": \"g/p\"\x7d\x7d"

/-- The parsed form of noteBodyStr. -/
def notePayloadJson : Json :=
  Json.obj [("object_kind", Json.str "note"),
            ("project", Json.obj [("path_with_namespace", Json.str "g/p")])]

/-!  An exception-aware model of the handler.  The typed view above is total:
toPayload and Json.getField map JSON shapes on which the Python would raise
to absent fields.  The following second model of lambda.py keeps those raises
explicit: every late-bound attribute access, subscript and iteration that can
fail on an unexpected shape returns an exception value, so that statements
about uncaught exceptions are statements about this model. -/

/-- The uncaught Python exceptions the handler can raise on unexpected JSON
shapes. -/
inductive PyExn where
  | attributeError : PyExn
  | typeError : PyExn
  | keyError : PyExn

/-- Whether a JSON value is an object. -/
def Json.isObj : Json → Bool
  | Json.obj _ => true
  | _ => false

/-- Python str() as interpolated into the secret-key f-string of lambda.py
line 13.  Exact for strings, booleans and null; numbers keep their JSON
lexeme and containers get an abbreviated rendering, standing in for Python
reprs whose exact floating-point formatting is outside the model.  Every
theorem below reaches only the string case. -/
def pyStr : Json → String
  | Json.str s => s
  | Json.bool true => "True"
  | Json.bool false => "False"
  | Json.null => "None"
  | Json.num s => s
  | Json.arr _ => "[...]"
  | Json.obj _ => "\x7b...\x7d"

/-- payload.get(outer, \x7b\x7d).get(inner) with Python semantics: the inner
.get raises AttributeError when its receiver is not a dict, as does the outer
one when the payload itself is not a dict (lambda.py lines 28 and 79). -/
def getThenGetPy (j : Json) (outer inner : String) : Except PyExn (Option Json) :=
  match j with
  | Json.obj _ =>
    match Json.getField j outer with
    | none => .ok none
    | some ov =>
      match ov with
      | Json.obj _ => .ok (Json.getField ov inner)
      | _ => .error PyExn.attributeError
  | _ => .error PyExn.attributeError

/-- verify_gitlab_signature over the raw parsed payload, with the raising
field accesses of lambda.py line 28 kept explicit.  A truthy non-string
project value flows into the secret key through pyStr, as the f-string
does. -/
def verify_gitlab_signature_py (secrets : String → Option String) (payloadJson : Json)
    (headers : List (String × String)) : Except PyExn (Bool × Option String) :=
  let token := (headersLower headers "x-gitlab-token").getD ""
  match getThenGetPy payloadJson "project" "path_with_namespace" with
  | .error e => .error e
  | .ok none => .ok (false, some "No project info in payload")
  | .ok (some pv) =>
    if !pv.truthy then .ok (false, some "No project info in payload")
    else
      match secrets ("gitlab/" ++ pyStr pv ++ "/token") with
      | none => .ok (false, some ("No token registered for project " ++ pyStr pv))
      | some expected_token =>
        if expected_token = "" then
          .ok (false, some ("No token registered for project " ++ pyStr pv))
        else if token ≠ expected_token then .ok (false, some "Invalid secret token")
        else .ok (true, none)

/-- Python iteration over a parsed-JSON value (the for of lambda.py line 76):
lists yield their elements, strings their characters, dicts their keys, and
any other value raises TypeError. -/
def iterPy : Json → Except PyExn (List Json)
  | Json.arr xs => .ok xs
  | Json.str s => .ok (s.data.map (fun c => Json.str (String.mk [c])))
  | Json.obj fs => .ok (fs.map (fun p => Json.str p.1))
  | _ => .error PyExn.typeError

/-- One step of the comprehension of lambda.py line 76,
label["title"].lower(), with Python semantics: subscripting a non-dict with
a string raises TypeError, a missing key raises KeyError, and .lower() on a
non-string raises AttributeError. -/
def labelTitlePy : Json → Except PyExn String
  | Json.obj fs =>
    match Json.getField (Json.obj fs) "title" with
    | none => .error PyExn.keyError
    | some (Json.str s) => .ok (lowerStr s)
    | some _ => .error PyExn.attributeError
  | _ => .error PyExn.typeError

/-- The comprehension of lambda.py line 76 over already-obtained items. -/
def titlesOfPy : List Json → Except PyExn (List String)
  | [] => .ok []
  | x :: xs =>
    match labelTitlePy x with
    | .error e => .error e
    | .ok t =>
      match titlesOfPy xs with
      | .error e => .error e
      | .ok ts => .ok (t :: ts)

/-- Lines 75 and 76: payload.get("labels", []) and the lowering
comprehension, with raising semantics.  The payload is known to be a dict
whenever this runs, verification having returned, so the labels read itself
uses the plain lookup. -/
def labelTitlesPy (payloadJson : Json) : Except PyExn (List String) :=
  match Json.getField payloadJson "labels" with
  | none => .ok []
  | some lv =>
    match iterPy lv with
    | .error e => .error e
    | .ok items => titlesOfPy items

/-- A pipeline variable as the raising model passes it: the raw JSON value
read from object_attributes.source_branch, since Python passes any value
through to the backend call. -/
structure VariablePy where
  name : String
  value : Option Json

/-- A record of one backend call made by the raising model. -/
structure TriggerCallPy where
  pipeline : Json
  vars : List VariablePy

/-- A typed variable viewed in the raising model. -/
def liftVariable (v : Variable) : VariablePy := ⟨v.name, v.value.map Json.str⟩

/-- A typed trigger call viewed in the raising model. -/
def liftCall (c : TriggerCall) : TriggerCallPy := ⟨c.pipeline, c.vars.map liftVariable⟩

/-- A raising-model backend restricted to typed variable lists. -/
def backendOfPy (b : Json → List VariablePy → String) : Json → List Variable → String :=
  fun p vs => b p (vs.map liftVariable)

/-- The loop of lambda.py lines 93 to 101 with Python semantics: every
iteration calls label_pipeline_mapping.get, which raises AttributeError when
the parsed configuration is not a dict; an empty title list never touches the
mapping. -/
def dispatchLabelsPy (backend : Json → List VariablePy → String) (mapping : Json)
    (branch : Option Json) : List String → Except PyExn (List TriggerResult × List TriggerCallPy)
  | [] => .ok ([], [])
  | label :: rest =>
    match mapping with
    | Json.obj _ =>
      match Json.getField mapping label with
      | none => dispatchLabelsPy backend mapping branch rest
      | some pipeline_name =>
        if pipeline_name.truthy then
          match dispatchLabelsPy backend mapping branch rest with
          | .error e => .error e
          | .ok tail =>
            .ok (⟨label, pipeline_name, backend pipeline_name [⟨"SOURCE_BRANCH", branch⟩]⟩ :: tail.1,
                 ⟨pipeline_name, [⟨"SOURCE_BRANCH", branch⟩]⟩ :: tail.2)
        else dispatchLabelsPy backend mapping branch rest
    | _ => .error PyExn.attributeError

/-- lambda_handler with the raising accesses of lambda.py kept explicit:
structured responses come back as .ok, uncaught Python exceptions as .error.
The object_kind read of line 71 uses the plain lookup because the payload is
a dict once verification has returned; comparing its value of any type with
the merge_request string never raises. -/
def lambda_handler_py (secrets : String → Option String)
    (backend : Json → List VariablePy → String) (env : Option String) (event : Event) :
    Except PyExn (Response × List TriggerCallPy) :=
  match parseJson (event.body.getD emptyObjStr) with
  | none => .ok (⟨400, Json.obj [("error", Json.str "Invalid JSON payload")], none⟩, [])
  | some payloadJson =>
    match verify_gitlab_signature_py secrets payloadJson event.headers with
    | .error e => .error e
    | .ok vr =>
      if !vr.1 then .ok (⟨403, Json.obj [("error", jsonOfOptStr vr.2)], none⟩, [])
      else if !(match Json.getField payloadJson "object_kind" with
                | some (Json.str s) => s == "merge_request"
                | _ => false) then
        .ok (⟨200, Json.obj [("message", Json.str "Not a merge request event")], none⟩, [])
      else
        match labelTitlesPy payloadJson with
        | .error e => .error e
        | .ok label_titles =>
          match getThenGetPy payloadJson "object_attributes" "source_branch" with
          | .error e => .error e
          | .ok source_branch =>
            match parseJson (env.getD emptyObjStr) with
            | none =>
              .ok (⟨500, Json.obj [("error", Json.str "Invalid LABEL_PIPELINE_MAPPING env var")], none⟩, [])
            | some label_pipeline_mapping =>
              match dispatchLabelsPy backend label_pipeline_mapping source_branch label_titles with
              | .error e => .error e
              | .ok out =>
                if out.1.isEmpty then
                  .ok (⟨200, Json.obj [("message", Json.str "No matching label for pipeline, skipped")],
                        some [("Content-Type", "application/json")]⟩, out.2)
                else
                  .ok (⟨200, Json.obj [("triggered_pipelines", Json.arr (out.1.map TriggerResult.toJson))],
                        some [("Content-Type", "application/json")]⟩, out.2)

/-- Whether an optional JSON value is absent or a string. -/
def strOrAbsent : Option Json → Bool
  | none => true
  | some (Json.str _) => true
  | some _ => false

/-- Whether one labels entry has the shape the code expects: an object
carrying a string title. -/
def labelConforms : Json → Bool
  | Json.obj fs =>
    match Json.getField (Json.obj fs) "title" with
    | some (Json.str _) => true
    | _ => false
  | _ => false

/-- The payload shapes on which the late-bound accesses of lambda.py cannot
raise and the typed view is exact: an object whose project and
object_attributes fields, when present, are objects with absent-or-string
path_with_namespace and source_branch, and whose labels field, when present,
is a list of objects each carrying a string title. -/
def payloadConforms (j : Json) : Bool :=
  match j with
  | Json.obj _ =>
    (match Json.getField j "project" with
     | none => true
     | some pv =>
       match pv with
       | Json.obj _ => strOrAbsent (Json.getField pv "path_with_namespace")
       | _ => false)
    && (match Json.getField j "object_attributes" with
     | none => true
     | some av =>
       match av with
       | Json.obj _ => strOrAbsent (Json.getField av "source_branch")
       | _ => false)
    && (match Json.getField j "labels" with
     | none => true
     | some lv =>
       match lv with
       | Json.arr xs => xs.all labelConforms
       | _ => false)
  | _ => false

/-- A raising-model backend answering every call with execution id eid-1. -/
def fixBackendPy : Json → List VariablePy → String := fun _ _ => "eid-1"

/-!  Supporting lemmas. -/

/-- The empty-object default parses to the empty JSON object. -/
theorem parse_emptyObjStr : parseJson emptyObjStr = some (Json.obj []) := rfl

/-- Lookup on the empty JSON object finds nothing. -/
theorem getField_emptyObj (k : String) : Json.getField (Json.obj []) k = none := rfl

/-- Whenever verification reports failure it also reports a reason string. -/
theorem verify_false_has_reason (secrets : String → Option String) (payload : Payload)
    (headers : List (String × String)) (h : (verify_gitlab_signature secrets payload headers).1 = false) :
    ∃ m, (verify_gitlab_signature secrets payload headers).2 = some m := by
  unfold verify_gitlab_signature at *
  cases hp : projectPath payload with
  | none => exact ⟨"No project info in payload", by simp [hp]⟩
  | some project =>
    simp only [hp] at h ⊢
    by_cases hpe : project = ""
    · exact ⟨"No project info in payload", by simp [hpe]⟩
    · simp only [hpe, if_false] at h ⊢
      cases hs : get_project_token secrets project with
      | none => exact ⟨"No token registered for project " ++ project, by simp [hs]⟩
      | some expected =>
        simp only [hs] at h ⊢
        by_cases hse : expected = ""
        · exact ⟨"No token registered for project " ++ project, by simp [hse]⟩
        · by_cases ht : (headersLower headers "x-gitlab-token").getD "" ≠ expected
          · exact ⟨"Invalid secret token", by simp [hse, ht]⟩
          · simp [hse, ht] at h

/-- A token different from the registered secret makes verification fail
with some reason, whatever the earlier truthiness tests decide. -/
theorem verify_mismatch_fails (secrets : String → Option String) (payload : Payload)
    (headers : List (String × String)) (p s : String)
    (hproj : projectPath payload = some p)
    (hsec : secrets ("gitlab/" ++ p ++ "/token") = some s)
    (htok : (headersLower headers "x-gitlab-token").getD "" ≠ s) :
    ∃ m, verify_gitlab_signature secrets payload headers = (false, some m) := by
  unfold verify_gitlab_signature
  rw [hproj]
  by_cases hpe : p = ""
  · exact ⟨"No project info in payload", by simp [hpe]⟩
  · simp only [hpe, if_false]
    rw [show get_project_token secrets p = some s from by simp [get_project_token, hsec]]
    by_cases hse : s = ""
    · exact ⟨"No token registered for project " ++ p, by simp [hse]⟩
    · exact ⟨"Invalid secret token", by simp [hse, htok]⟩

/-- The dispatch loop is the filterMap of the per-label contribution, for the
results and for the call trace alike. -/
theorem dispatchLabels_eq_filterMap (backend : Json → List Variable → String) (mapping : Json)
    (branch : Option String) (titles : List String) :
    dispatchLabels backend mapping branch titles =
      (titles.filterMap (fun l => (matchEntry backend mapping branch l).map Prod.fst),
       titles.filterMap (fun l => (matchEntry backend mapping branch l).map Prod.snd)) := by
  induction titles with
  | nil => rfl
  | cons l rest ih =>
    simp only [dispatchLabels, ih, matchEntry, List.filterMap_cons]
    cases h : Json.getField mapping l with
    | none => simp
    | some v =>
      by_cases ht : v.truthy
      · simp [ht]
      · simp [ht]

/-- Counting on a filterMap counts the sources whose image satisfies the
predicate. -/
theorem countP_filterMap {α β : Type} (g : α → Option β) (q : β → Bool) (xs : List α) :
    (xs.filterMap g).countP q = xs.countP (fun a => ((g a).map q).getD false) := by
  induction xs with
  | nil => rfl
  | cons a xs ih =>
    cases h : g a with
    | none => simp [List.filterMap_cons, h, List.countP_cons, ih]
    | some b => simp [List.filterMap_cons, h, List.countP_cons, ih]

/-- The length of a filterMap is the count of sources with a contribution. -/
theorem length_filterMap_eq_countP {α β : Type} (g : α → Option β) (xs : List α) :
    (xs.filterMap g).length = xs.countP (fun a => (g a).isSome) := by
  induction xs with
  | nil => rfl
  | cons a xs ih =>
    cases h : g a with
    | none => simp [List.filterMap_cons, h, List.countP_cons, ih]
    | some b => simp [List.filterMap_cons, h, List.countP_cons, ih]


/-!  Additional supporting lemmas for the dispatch claims. -/

/-- A filterMap over sources without contributions is empty. -/
theorem filterMap_eq_nil_of {α β : Type} (f : α → Option β) (xs : List α)
    (h : ∀ a ∈ xs, f a = none) : xs.filterMap f = [] := by
  induction xs with
  | nil => rfl
  | cons a xs ih =>
    simp [List.filterMap_cons, h a (by simp), ih (fun b hb => h b (by simp [hb]))]

/-- Dispatching against the empty mapping triggers nothing. -/
theorem dispatchLabels_empty_mapping (backend : Json → List Variable → String)
    (branch : Option String) (titles : List String) :
    dispatchLabels backend (Json.obj []) branch titles = ([], []) := by
  induction titles with
  | nil => rfl
  | cons l rest ih => simp [dispatchLabels, ih, Json.getField]

/-- Once parsing, authentication and the event filter have passed and the
mapping has parsed, the handler output is determined by the filterMap of the
per-label contribution over the lowered titles. -/
theorem handler_after_gates (secrets : String → Option String)
    (backend : Json → List Variable → String) (env : Option String) (event : Event)
    (pj mapping : Json)
    (hparse : parseJson (event.body.getD emptyObjStr) = some pj)
    (hauth : (verify_gitlab_signature secrets (toPayload pj) event.headers).1 = true)
    (hkind : (toPayload pj).object_kind = some "merge_request")
    (hmap : parseJson (env.getD emptyObjStr) = some mapping) :
    lambda_handler secrets backend env event
      = (if ((labelTitles (toPayload pj)).filterMap
              (fun l => (matchEntry backend mapping (sourceBranch (toPayload pj)) l).map Prod.fst)).isEmpty
         then ⟨200, Json.obj [("message", Json.str "No matching label for pipeline, skipped")],
               some [("Content-Type", "application/json")]⟩
         else ⟨200, Json.obj [("triggered_pipelines", Json.arr
                 (((labelTitles (toPayload pj)).filterMap
                    (fun l => (matchEntry backend mapping (sourceBranch (toPayload pj)) l).map Prod.fst)).map
                   TriggerResult.toJson))],
               some [("Content-Type", "application/json")]⟩,
         (labelTitles (toPayload pj)).filterMap
           (fun l => (matchEntry backend mapping (sourceBranch (toPayload pj)) l).map Prod.snd)) := by
  simp only [lambda_handler, hparse, hauth, hkind, hmap, dispatchLabels_eq_filterMap,
    Bool.not_true, Bool.false_eq_true, if_false, ne_eq, not_true_eq_false]
  split <;> simp


/-!  The claims. -/

/-- Claim C10: when the inbound event has no body key at all, the handler
substitutes the empty-object default string, which parses successfully as an
empty payload, so the result is not the 400 malformed-input response but a
403 authentication failure with reason No project info in payload, and no
pipeline is triggered. -/
theorem C10_missing_body_is_auth_failure (secrets : String → Option String)
    (backend : Json → List Variable → String) (env : Option String)
    (headers : List (String × String)) :
    lambda_handler secrets backend env ⟨none, headers⟩
      = (⟨403, Json.obj [("error", Json.str "No project info in payload")], none⟩, []) := rfl

/-- Claim C1: for every request whose supplied x-gitlab-token header value
(looked up case-insensitively) differs from the secret registered for the
project of the payload, the handler returns 403 with the verification
failure reason as the body error, and no pipeline trigger call is made. -/
theorem C1_token_mismatch_forbidden (secrets : String → Option String)
    (backend : Json → List Variable → String) (env : Option String) (event : Event)
    (pj : Json) (p s : String)
    (hparse : parseJson (event.body.getD emptyObjStr) = some pj)
    (hproj : projectPath (toPayload pj) = some p)
    (hsec : secrets ("gitlab/" ++ p ++ "/token") = some s)
    (htok : (headersLower event.headers "x-gitlab-token").getD "" ≠ s) :
    ∃ m, verify_gitlab_signature secrets (toPayload pj) event.headers = (false, some m)
      ∧ lambda_handler secrets backend env event
          = (⟨403, Json.obj [("error", Json.str m)], none⟩, []) := by
  obtain ⟨m, hm⟩ := verify_mismatch_fails secrets (toPayload pj) event.headers p s hproj hsec htok
  refine ⟨m, hm, ?_⟩
  simp [lambda_handler, hparse, hm, jsonOfOptStr]

set_option maxRecDepth 20000 in
/-- Claim C1 witness: the scenario request with a wrong token is refused with
status 403 and triggers nothing. -/
theorem C1_token_mismatch_forbidden_witness :
    ∃ m, verify_gitlab_signature fixSecrets (toPayload mrPayloadJson) [("X-Gitlab-Token", "wrong")]
          = (false, some m)
      ∧ lambda_handler fixSecrets fixBackend none ⟨some mrBodyStr, [("X-Gitlab-Token", "wrong")]⟩
          = (⟨403, Json.obj [("error", Json.str m)], none⟩, []) :=
  C1_token_mismatch_forbidden fixSecrets fixBackend none
    ⟨some mrBodyStr, [("X-Gitlab-Token", "wrong")]⟩ mrPayloadJson "g/p" "secret123"
    rfl rfl rfl (by decide)

/-- Claim C3: every authenticated request whose payload object_kind is not
the string merge_request (including an absent field) gets the neutral 200
response and triggers nothing, whatever labels the payload carries. -/
theorem C3_non_mr_event_neutral (secrets : String → Option String)
    (backend : Json → List Variable → String) (env : Option String) (event : Event)
    (pj : Json)
    (hparse : parseJson (event.body.getD emptyObjStr) = some pj)
    (hauth : (verify_gitlab_signature secrets (toPayload pj) event.headers).1 = true)
    (hkind : (toPayload pj).object_kind ≠ some "merge_request") :
    lambda_handler secrets backend env event
      = (⟨200, Json.obj [("message", Json.str "Not a merge request event")], none⟩, []) := by
  simp [lambda_handler, hparse, hauth, hkind]

set_option maxRecDepth 20000 in
/-- Claim C3 witness: an authenticated note event gets the neutral response. -/
theorem C3_non_mr_event_neutral_witness :
    lambda_handler fixSecrets fixBackend none ⟨some noteBodyStr, tokenHeaders⟩
      = (⟨200, Json.obj [("message", Json.str "Not a merge request event")], none⟩, []) :=
  C3_non_mr_event_neutral fixSecrets fixBackend none ⟨some noteBodyStr, tokenHeaders⟩
    notePayloadJson rfl rfl (by decide)

/-- Claim C2 counterexample: register the empty string as the secret of
project p and supply no token, so that the supplied token equals the
registered secret.  The claim then demands success, but the code refuses
with the no-token reason, because line 33 of lambda.py tests the secret with
Python truthiness. -/
theorem C2_auth_behaviour_counterexample :
    verify_gitlab_signature (fun k => if k = "gitlab/p/token" then some "" else none)
        ⟨none, some ⟨some "p"⟩, none, none⟩ []
      = (false, some "No token registered for project p")
    ∧ authClaimed (fun k => if k = "gitlab/p/token" then some "" else none)
        ⟨none, some ⟨some "p"⟩, none, none⟩ []
      = (true, none)
    ∧ verify_gitlab_signature (fun k => if k = "gitlab/p/token" then some "" else none)
        ⟨none, some ⟨some "p"⟩, none, none⟩ []
      ≠ authClaimed (fun k => if k = "gitlab/p/token" then some "" else none)
        ⟨none, some ⟨some "p"⟩, none, none⟩ [] :=
  ⟨rfl, rfl, by decide⟩

/-- Claim C2 as amended: authentication behaves exactly as the claim says
once a present but empty path_with_namespace is treated like an absent one
and a registered but empty secret is treated like an unregistered one. -/
theorem C2_auth_behaviour_amended (secrets : String → Option String) (payload : Payload)
    (headers : List (String × String)) :
    verify_gitlab_signature secrets payload headers = authAmended secrets payload headers := by
  unfold verify_gitlab_signature authAmended get_project_token
  cases hp : projectPath payload with
  | none => rfl
  | some project =>
    by_cases hpe : project = ""
    · simp [hpe]
    · simp only [hpe, if_false]
      cases hs : secrets ("gitlab/" ++ project ++ "/token") with
      | none => rfl
      | some expected =>
        by_cases hse : expected = ""
        · simp [hse]
        · by_cases ht : (headersLower headers "x-gitlab-token").getD "" = expected
          · simp [hse, ht]
          · simp [hse, ht]


set_option maxRecDepth 40000 in
/-- Claim C4 counterexample: in the scenario request configured with the
mapping sending q1 to the empty pipeline name, the label q1 maps to a
pipeline entry of the configured mapping, yet the handler makes no trigger
call and returns the no-match response, because line 95 of lambda.py tests
the looked-up name with Python truthiness. -/
theorem C4_label_dispatch_counterexample :
    Json.getField (Json.obj [("q1", Json.str "")]) "q1" = some (Json.str "")
    ∧ parseJson "\x7b\"q1\": \"\"\x7d" = some (Json.obj [("q1", Json.str "")])
    ∧ labelTitles (toPayload mrPayloadJson) = ["q1"]
    ∧ lambda_handler fixSecrets fixBackend (some "\x7b\"q1\": \"\"\x7d") ⟨some mrBodyStr, tokenHeaders⟩
        = (⟨200, Json.obj [("message", Json.str "No matching label for pipeline, skipped")],
            some [("Content-Type", "application/json")]⟩, []) :=
  ⟨rfl, rfl, rfl, rfl⟩

/-- Claim C4 as amended: for an authenticated merge-request event, processing
the lowered label titles in payload order, every title whose mapping value is
truthy (in particular every non-empty pipeline name) produces exactly one
trigger call carrying the SOURCE_BRANCH variable with the source branch of
the payload and one result entry with that label, value and the execution id
of the backend, in order; titles without a mapping entry, and titles whose
mapping value is empty or otherwise falsy, are skipped without a call. -/
theorem C4_label_dispatch_amended (secrets : String → Option String)
    (backend : Json → List Variable → String) (env : Option String) (event : Event)
    (pj mapping : Json)
    (hparse : parseJson (event.body.getD emptyObjStr) = some pj)
    (hauth : (verify_gitlab_signature secrets (toPayload pj) event.headers).1 = true)
    (hkind : (toPayload pj).object_kind = some "merge_request")
    (hmap : parseJson (env.getD emptyObjStr) = some mapping) :
    (∀ l v, Json.getField mapping l = some v → v.truthy →
        matchEntry backend mapping (sourceBranch (toPayload pj)) l
          = some (⟨l, v, backend v [⟨"SOURCE_BRANCH", sourceBranch (toPayload pj)⟩]⟩,
                  ⟨v, [⟨"SOURCE_BRANCH", sourceBranch (toPayload pj)⟩]⟩))
    ∧ (∀ l, Json.getField mapping l = none →
        matchEntry backend mapping (sourceBranch (toPayload pj)) l = none)
    ∧ (lambda_handler secrets backend env event).2
        = (labelTitles (toPayload pj)).filterMap
            (fun l => (matchEntry backend mapping (sourceBranch (toPayload pj)) l).map Prod.snd)
    ∧ ((labelTitles (toPayload pj)).filterMap
          (fun l => (matchEntry backend mapping (sourceBranch (toPayload pj)) l).map Prod.fst) ≠ [] →
        (lambda_handler secrets backend env event).1
          = ⟨200, Json.obj [("triggered_pipelines", Json.arr
              (((labelTitles (toPayload pj)).filterMap
                 (fun l => (matchEntry backend mapping (sourceBranch (toPayload pj)) l).map Prod.fst)).map
                TriggerResult.toJson))],
             some [("Content-Type", "application/json")]⟩) := by
  have hg := handler_after_gates secrets backend env event pj mapping hparse hauth hkind hmap
  refine ⟨?_, ?_, ?_, ?_⟩
  · intro l v hv ht
    simp [matchEntry, hv, ht, trigger_pipeline]
  · intro l hl
    simp [matchEntry, hl]
  · rw [hg]
  · intro hne
    rw [hg]
    simp [List.isEmpty_iff, hne]

set_option maxRecDepth 40000 in
/-- Claim C4 witness: in the scenario request with mapping q1 to PipelineQ1
exactly one trigger call is made, naming PipelineQ1 with the SOURCE_BRANCH
variable set to feature-x. -/
theorem C4_label_dispatch_amended_witness :
    (lambda_handler fixSecrets fixBackend (some "\x7b\"q1\": \"PipelineQ1\"\x7d")
        ⟨some mrBodyStr, tokenHeaders⟩).2
      = [⟨Json.str "PipelineQ1", [⟨"SOURCE_BRANCH", some "feature-x"⟩]⟩] :=
  (C4_label_dispatch_amended fixSecrets fixBackend (some "\x7b\"q1\": \"PipelineQ1\"\x7d")
      ⟨some mrBodyStr, tokenHeaders⟩ mrPayloadJson (Json.obj [("q1", Json.str "PipelineQ1")])
      rfl rfl rfl rfl).2.2.1


set_option maxRecDepth 40000 in
/-- Claim C5 counterexample: with labels A and B and the mapping sending a to
the empty name and b to PipeB, both lowered titles occur as keys of the
configured mapping, yet only one trigger call is made, so a matching label
occurrence does not always cause exactly one call. -/
theorem C5_trigger_count_counterexample :
    Json.getField (Json.obj [("a", Json.str ""), ("b", Json.str "PipeB")]) "a" = some (Json.str "")
    ∧ Json.getField (Json.obj [("a", Json.str ""), ("b", Json.str "PipeB")]) "b" = some (Json.str "PipeB")
    ∧ parseJson "\x7b\"a\": \"\", \"b\": \"PipeB\"\x7d"
        = some (Json.obj [("a", Json.str ""), ("b", Json.str "PipeB")])
    ∧ labelTitles (toPayload twoLabelPayloadJson) = ["a", "b"]
    ∧ (lambda_handler fixSecrets fixBackend (some "\x7b\"a\": \"\", \"b\": \"PipeB\"\x7d")
        ⟨some twoLabelBodyStr, tokenHeaders⟩).2
        = [⟨Json.str "PipeB", [⟨"SOURCE_BRANCH", some "feature-x"⟩]⟩] :=
  ⟨rfl, rfl, rfl, rfl, rfl⟩

/-- Claim C5 as amended: within one invocation of an authenticated
merge-request event, exactly one trigger call is made per label occurrence
whose lowered title maps to a truthy value in the configured mapping, and no
deduplication of pipeline names occurs: for every pipeline name P, the number
of calls naming P equals the number of label occurrences whose lowered title
maps to the non-empty name P, so two distinct such labels mapping to the same
name yield two calls.  A label whose mapping value is empty or otherwise
falsy triggers nothing. -/
theorem C5_trigger_count_amended (secrets : String → Option String)
    (backend : Json → List Variable → String) (env : Option String) (event : Event)
    (pj mapping : Json)
    (hparse : parseJson (event.body.getD emptyObjStr) = some pj)
    (hauth : (verify_gitlab_signature secrets (toPayload pj) event.headers).1 = true)
    (hkind : (toPayload pj).object_kind = some "merge_request")
    (hmap : parseJson (env.getD emptyObjStr) = some mapping) :
    ((lambda_handler secrets backend env event).2).length
      = (labelTitles (toPayload pj)).countP
          (fun l => (matchEntry backend mapping (sourceBranch (toPayload pj)) l).isSome)
    ∧ ∀ P : String,
        ((lambda_handler secrets backend env event).2).countP (fun c => c.pipelineNamed P)
          = (labelTitles (toPayload pj)).countP (fun l => mapsToName mapping P l) := by
  have hg := handler_after_gates secrets backend env event pj mapping hparse hauth hkind hmap
  constructor
  · rw [hg]
    rw [length_filterMap_eq_countP]
    congr 1
    funext a
    simp
  · intro P
    rw [hg]
    simp only [countP_filterMap]
    have hpt : ∀ l, ((((matchEntry backend mapping (sourceBranch (toPayload pj)) l).map
          Prod.snd).map (fun c => c.pipelineNamed P)).getD false)
        = mapsToName mapping P l := by
      intro l
      unfold matchEntry mapsToName
      cases h : Json.getField mapping l with
      | none => rfl
      | some v =>
        cases v with
        | null => rfl
        | bool b => cases b <;> simp [Json.truthy, TriggerCall.pipelineNamed, trigger_pipeline]
        | num s =>
          by_cases ht : Json.truthy (Json.num s) <;>
            simp [ht, TriggerCall.pipelineNamed, trigger_pipeline]
        | str s =>
          by_cases hse : s.isEmpty <;>
            simp [Json.truthy, hse, TriggerCall.pipelineNamed, trigger_pipeline]
        | arr xs =>
          by_cases ht : Json.truthy (Json.arr xs) <;>
            simp [ht, TriggerCall.pipelineNamed, trigger_pipeline]
        | obj fs =>
          by_cases ht : Json.truthy (Json.obj fs) <;>
            simp [ht, TriggerCall.pipelineNamed, trigger_pipeline]
    rw [funext hpt]

set_option maxRecDepth 40000 in
/-- Claim C5 witness: with labels C and D both mapped to PipeSame, the
pipeline PipeSame is triggered twice. -/
theorem C5_trigger_count_amended_witness :
    ((lambda_handler fixSecrets fixBackend
        (some "\x7b\"c\": \"PipeSame\", \"d\": \"PipeSame\"\x7d")
        ⟨some dupLabelBodyStr, tokenHeaders⟩).2).countP
      (fun c => c.pipelineNamed "PipeSame") = 2 :=
  (C5_trigger_count_amended fixSecrets fixBackend
    (some "\x7b\"c\": \"PipeSame\", \"d\": \"PipeSame\"\x7d")
    ⟨some dupLabelBodyStr, tokenHeaders⟩ dupPayloadJson
    (Json.obj [("c", Json.str "PipeSame"), ("d", Json.str "PipeSame")])
    rfl rfl rfl rfl).2 "PipeSame"

/-- Claim C6: an authenticated merge-request event none of whose lowered
label titles occurs as a key of the configured mapping (in particular one
with no labels) triggers nothing and gets the no-match 200 response. -/
theorem C6_no_matching_label_skipped (secrets : String → Option String)
    (backend : Json → List Variable → String) (env : Option String) (event : Event)
    (pj mapping : Json)
    (hparse : parseJson (event.body.getD emptyObjStr) = some pj)
    (hauth : (verify_gitlab_signature secrets (toPayload pj) event.headers).1 = true)
    (hkind : (toPayload pj).object_kind = some "merge_request")
    (hmap : parseJson (env.getD emptyObjStr) = some mapping)
    (hnone : ∀ l ∈ labelTitles (toPayload pj), Json.getField mapping l = none) :
    lambda_handler secrets backend env event
      = (⟨200, Json.obj [("message", Json.str "No matching label for pipeline, skipped")],
          some [("Content-Type", "application/json")]⟩, []) := by
  have hg := handler_after_gates secrets backend env event pj mapping hparse hauth hkind hmap
  have hfst : (labelTitles (toPayload pj)).filterMap
      (fun l => (matchEntry backend mapping (sourceBranch (toPayload pj)) l).map Prod.fst) = [] :=
    filterMap_eq_nil_of _ _ (fun l hl => by simp [matchEntry, hnone l hl])
  have hsnd : (labelTitles (toPayload pj)).filterMap
      (fun l => (matchEntry backend mapping (sourceBranch (toPayload pj)) l).map Prod.snd) = [] :=
    filterMap_eq_nil_of _ _ (fun l hl => by simp [matchEntry, hnone l hl])
  rw [hg, hfst, hsnd]
  simp

set_option maxRecDepth 40000 in
/-- Claim C6 witness: the scenario request against a mapping whose only key
is zz triggers nothing and gets the no-match response. -/
theorem C6_no_matching_label_skipped_witness :
    lambda_handler fixSecrets fixBackend (some "\x7b\"zz\": \"P\"\x7d")
        ⟨some mrBodyStr, tokenHeaders⟩
      = (⟨200, Json.obj [("message", Json.str "No matching label for pipeline, skipped")],
          some [("Content-Type", "application/json")]⟩, []) :=
  C6_no_matching_label_skipped fixSecrets fixBackend (some "\x7b\"zz\": \"P\"\x7d")
    ⟨some mrBodyStr, tokenHeaders⟩ mrPayloadJson (Json.obj [("zz", Json.str "P")])
    rfl rfl rfl rfl
    (by
      intro l hl
      have hlist : labelTitles (toPayload mrPayloadJson) = ["q1"] := rfl
      rw [hlist] at hl
      simp only [List.mem_singleton] at hl
      subst hl
      rfl)


/-- Claim C7: with a malformed LABEL_PIPELINE_MAPPING configuration, the
handler returns the 500 configuration error exactly when the body parses,
authentication succeeds and the event is a merge request; no pipeline is ever
triggered, and otherwise the terminal response of the earlier step (400, 403
or the neutral 200) is returned, so the malformed configuration is only
observed after the three gates. -/
theorem C7_config_checked_after_gates (secrets : String → Option String)
    (backend : Json → List Variable → String) (cfg : String) (event : Event)
    (hcfg : parseJson cfg = none) :
    (lambda_handler secrets backend (some cfg) event
        = (⟨500, Json.obj [("error", Json.str "Invalid LABEL_PIPELINE_MAPPING env var")], none⟩, [])
      ↔ ∃ pj, parseJson (event.body.getD emptyObjStr) = some pj
          ∧ (verify_gitlab_signature secrets (toPayload pj) event.headers).1 = true
          ∧ (toPayload pj).object_kind = some "merge_request")
    ∧ (lambda_handler secrets backend (some cfg) event).2 = []
    ∧ ((lambda_handler secrets backend (some cfg) event).1
         = ⟨400, Json.obj [("error", Json.str "Invalid JSON payload")], none⟩
       ∨ (∃ m, (lambda_handler secrets backend (some cfg) event).1
           = ⟨403, Json.obj [("error", Json.str m)], none⟩)
       ∨ (lambda_handler secrets backend (some cfg) event).1
           = ⟨200, Json.obj [("message", Json.str "Not a merge request event")], none⟩
       ∨ (lambda_handler secrets backend (some cfg) event).1
           = ⟨500, Json.obj [("error", Json.str "Invalid LABEL_PIPELINE_MAPPING env var")], none⟩) := by
  cases hb : parseJson (event.body.getD emptyObjStr) with
  | none =>
    have hout : lambda_handler secrets backend (some cfg) event
        = (⟨400, Json.obj [("error", Json.str "Invalid JSON payload")], none⟩, []) := by
      simp [lambda_handler, hb]
    refine ⟨⟨fun h => ?_, fun h => ?_⟩, by rw [hout], Or.inl (by rw [hout])⟩
    · rw [hout] at h
      simp at h
    · obtain ⟨pj, hpj, -, -⟩ := h
      exact Option.noConfusion hpj
  | some pj =>
    cases hv : (verify_gitlab_signature secrets (toPayload pj) event.headers).1 with
    | false =>
      obtain ⟨m, hm⟩ := verify_false_has_reason secrets (toPayload pj) event.headers hv
      have hout : lambda_handler secrets backend (some cfg) event
          = (⟨403, Json.obj [("error", Json.str m)], none⟩, []) := by
        simp [lambda_handler, hb, hv, hm, jsonOfOptStr]
      refine ⟨⟨fun h => ?_, fun h => ?_⟩, by rw [hout], Or.inr (Or.inl ⟨m, by rw [hout]⟩)⟩
      · rw [hout] at h
        simp at h
      · obtain ⟨pj2, hpj2, hauth2, -⟩ := h
        injection hpj2 with h2
        subst h2
        rw [hv] at hauth2
        exact Bool.noConfusion hauth2
    | true =>
      by_cases hk : (toPayload pj).object_kind = some "merge_request"
      · have hout : lambda_handler secrets backend (some cfg) event
            = (⟨500, Json.obj [("error", Json.str "Invalid LABEL_PIPELINE_MAPPING env var")], none⟩, []) := by
          simp [lambda_handler, hb, hv, hk, hcfg]
        exact ⟨⟨fun _ => ⟨pj, rfl, hv, hk⟩, fun _ => hout⟩, by rw [hout],
          Or.inr (Or.inr (Or.inr (by rw [hout])))⟩
      · have hout : lambda_handler secrets backend (some cfg) event
            = (⟨200, Json.obj [("message", Json.str "Not a merge request event")], none⟩, []) := by
          simp [lambda_handler, hb, hv, hk]
        refine ⟨⟨fun h => ?_, fun h => ?_⟩, by rw [hout], Or.inr (Or.inr (Or.inl (by rw [hout])))⟩
        · rw [hout] at h
          simp at h
        · obtain ⟨pj2, hpj2, -, hk2⟩ := h
          injection hpj2 with h2
          subst h2
          exact (hk hk2).elim

set_option maxRecDepth 40000 in
/-- Claim C7 witness: the scenario request with a malformed mapping string
passes the three gates and gets the 500 configuration error. -/
theorem C7_config_checked_after_gates_witness :
    lambda_handler fixSecrets fixBackend (some "\x7bnot json") ⟨some mrBodyStr, tokenHeaders⟩
      = (⟨500, Json.obj [("error", Json.str "Invalid LABEL_PIPELINE_MAPPING env var")], none⟩, []) :=
  (C7_config_checked_after_gates fixSecrets fixBackend "\x7bnot json"
      ⟨some mrBodyStr, tokenHeaders⟩ rfl).1.mpr ⟨mrPayloadJson, rfl, rfl, rfl⟩

/-!  Refinement of the raising model by the typed one, under the shapes
the code expects. -/

/-- Under payload conformance, the raw project read of line 28 returns the
typed projection, as a string. -/
theorem getThenGetPy_project (j : Json) (h : payloadConforms j = true) :
    getThenGetPy j "project" "path_with_namespace"
      = .ok ((projectPath (toPayload j)).map Json.str) := by
  cases j with
  | obj fields =>
    simp only [payloadConforms, Bool.and_eq_true] at h
    obtain ⟨⟨hp, -⟩, -⟩ := h
    unfold getThenGetPy projectPath toPayload
    cases hpf : Json.getField (Json.obj fields) "project" with
    | none => simp [hpf]
    | some pv =>
      rw [hpf] at hp
      cases pv with
      | obj pf =>
        simp only at hp
        cases hin : Json.getField (Json.obj pf) "path_with_namespace" with
        | none => simp [hin]
        | some iv =>
          rw [hin] at hp
          cases iv <;> simp_all [strOrAbsent, asString]
      | null => simp [strOrAbsent] at hp
      | bool b => simp [strOrAbsent] at hp
      | num s => simp [strOrAbsent] at hp
      | str s => simp [strOrAbsent] at hp
      | arr xs => simp [strOrAbsent] at hp
  | null => simp [payloadConforms] at h
  | bool b => simp [payloadConforms] at h
  | num s => simp [payloadConforms] at h
  | str s => simp [payloadConforms] at h
  | arr xs => simp [payloadConforms] at h

/-- Under payload conformance, the raw source-branch read of line 79 returns
the typed projection, as a string. -/
theorem getThenGetPy_attrs (j : Json) (h : payloadConforms j = true) :
    getThenGetPy j "object_attributes" "source_branch"
      = .ok ((sourceBranch (toPayload j)).map Json.str) := by
  cases j with
  | obj fields =>
    simp only [payloadConforms, Bool.and_eq_true] at h
    obtain ⟨⟨-, ha⟩, -⟩ := h
    unfold getThenGetPy sourceBranch toPayload
    cases haf : Json.getField (Json.obj fields) "object_attributes" with
    | none => simp [haf]
    | some av =>
      rw [haf] at ha
      cases av with
      | obj af =>
        simp only at ha
        cases hin : Json.getField (Json.obj af) "source_branch" with
        | none => simp [hin]
        | some iv =>
          rw [hin] at ha
          cases iv <;> simp_all [strOrAbsent, asString]
      | null => simp [strOrAbsent] at ha
      | bool b => simp [strOrAbsent] at ha
      | num s => simp [strOrAbsent] at ha
      | str s => simp [strOrAbsent] at ha
      | arr xs => simp [strOrAbsent] at ha
  | null => simp [payloadConforms] at h
  | bool b => simp [payloadConforms] at h
  | num s => simp [payloadConforms] at h
  | str s => simp [payloadConforms] at h
  | arr xs => simp [payloadConforms] at h


/-- Under payload conformance, the raising verification agrees with the typed
one. -/
theorem verify_py_conforms (secrets : String → Option String) (j : Json)
    (headers : List (String × String)) (h : payloadConforms j = true) :
    verify_gitlab_signature_py secrets j headers
      = .ok (verify_gitlab_signature secrets (toPayload j) headers) := by
  have hp := getThenGetPy_project j h
  unfold verify_gitlab_signature_py verify_gitlab_signature get_project_token
  rw [hp]
  cases hpp : projectPath (toPayload j) with
  | none => simp
  | some p =>
    by_cases hpe : p = ""
    · subst hpe
      simp [Json.truthy, pyStr]
      intro hcon
      exact absurd hcon (by decide)
    · have hne : p.isEmpty = false := by
        cases hemp : p.isEmpty
        · rfl
        · exact absurd ((String.isEmpty_iff p).mp hemp) hpe
      have htr : (Json.str p).truthy = true := by
        simp [Json.truthy, hne]
      simp only [Option.map_some', htr, Bool.not_true, Bool.false_eq_true, if_false, pyStr]
      cases hs : secrets ("gitlab/" ++ p ++ "/token") with
      | none => simp [hs, hpe]
      | some expected =>
        by_cases hse : expected = ""
        · simp [hs, hse, hpe]
        · by_cases ht : (headersLower headers "x-gitlab-token").getD "" = expected
          · simp [hs, hse, ht, hpe]
          · simp [hs, hse, ht, hpe]

/-- Under elementwise conformance, the raising comprehension of line 76
computes the lowered titles that the typed view extracts. -/
theorem titlesOfPy_conforms (xs : List Json) (h : xs.all labelConforms = true) :
    titlesOfPy xs
      = .ok ((xs.filterMap (fun x => ((x.getField "title").bind asString).map Label.mk)).map
          (fun l => lowerStr l.title)) := by
  induction xs with
  | nil => rfl
  | cons x xs ih =>
    rw [List.all_cons, Bool.and_eq_true] at h
    obtain ⟨hx, hxs⟩ := h
    cases x with
    | obj fs =>
      simp only [labelConforms] at hx
      cases ht : Json.getField (Json.obj fs) "title" with
      | none => rw [ht] at hx; simp at hx
      | some tv =>
        rw [ht] at hx
        cases tv with
        | str t =>
          simp [titlesOfPy, labelTitlePy, ht, ih hxs, List.filterMap_cons, asString]
        | null => simp at hx
        | bool b => simp at hx
        | num s => simp at hx
        | arr ys => simp at hx
        | obj gs => simp at hx
    | null => simp [labelConforms] at hx
    | bool b => simp [labelConforms] at hx
    | num s => simp [labelConforms] at hx
    | str s => simp [labelConforms] at hx
    | arr ys => simp [labelConforms] at hx

/-- Under payload conformance, the raising label-title extraction of lines 75
and 76 agrees with the typed one. -/
theorem labelTitlesPy_conforms (j : Json) (h : payloadConforms j = true) :
    labelTitlesPy j = .ok (labelTitles (toPayload j)) := by
  cases j with
  | obj fields =>
    have hl : (match Json.getField (Json.obj fields) "labels" with
        | none => true
        | some lv =>
          match lv with
          | Json.arr xs => xs.all labelConforms
          | _ => false) = true := by
      rw [payloadConforms, Bool.and_eq_true] at h
      exact h.2
    unfold labelTitlesPy labelTitles toPayload
    cases hlf : Json.getField (Json.obj fields) "labels" with
    | none => simp [hlf]
    | some lv =>
      rw [hlf] at hl
      cases lv with
      | arr xs =>
        simp only at hl
        simp [iterPy, titlesOfPy_conforms xs hl]
      | null => simp at hl
      | bool b => simp at hl
      | num s => simp at hl
      | str s => simp at hl
      | obj gs => simp at hl
  | null => simp [payloadConforms] at h
  | bool b => simp [payloadConforms] at h
  | num s => simp [payloadConforms] at h
  | str s => simp [payloadConforms] at h
  | arr xs => simp [payloadConforms] at h


/-- The merge-request test of line 71 over the raw payload agrees with the
typed view: a value of any other type never equals the merge_request
string. -/
theorem objectKindPy_eq (j : Json) :
    ((match Json.getField j "object_kind" with
      | some (Json.str s) => s == "merge_request"
      | _ => false) = true)
      ↔ (toPayload j).object_kind = some "merge_request" := by
  unfold toPayload
  cases hk : Json.getField j "object_kind" with
  | none => simp
  | some v => cases v <;> simp [asString]

/-- For an object mapping, the raising dispatch loop computes the typed
dispatch, the branch and the recorded calls lifted to raw JSON values. -/
theorem dispatchLabelsPy_lift (b : Json → List VariablePy → String) (mapping : Json)
    (hm : mapping.isObj = true) (branch : Option String) (titles : List String) :
    dispatchLabelsPy b mapping (branch.map Json.str) titles
      = .ok ((dispatchLabels (backendOfPy b) mapping branch titles).1,
             ((dispatchLabels (backendOfPy b) mapping branch titles).2).map liftCall) := by
  induction titles with
  | nil => rfl
  | cons l rest ih =>
    cases mapping with
    | obj fs =>
      unfold dispatchLabelsPy dispatchLabels
      cases hg : Json.getField (Json.obj fs) l with
      | none => simp only [hg]; exact ih
      | some v =>
        by_cases ht : v.truthy
        · simp [hg, ht, ih, trigger_pipeline, backendOfPy, liftCall, liftVariable]
        · simp only [hg, ht, Bool.false_eq_true, if_false]
          exact ih
    | null => simp [Json.isObj] at hm
    | bool b2 => simp [Json.isObj] at hm
    | num s => simp [Json.isObj] at hm
    | str s => simp [Json.isObj] at hm
    | arr xs => simp [Json.isObj] at hm

/-- Under payload and configuration conformance, the raising handler returns
exactly the typed handler output: the same response, and the same trigger
calls lifted to raw JSON branch values.  In particular it raises no
exception. -/
theorem lambda_handler_py_conforms (secrets : String → Option String)
    (b : Json → List VariablePy → String) (env : Option String) (event : Event)
    (hbody : ∀ pj, parseJson (event.body.getD emptyObjStr) = some pj → payloadConforms pj = true)
    (hcfg : ∀ m, parseJson (env.getD emptyObjStr) = some m → m.isObj = true) :
    lambda_handler_py secrets b env event
      = .ok ((lambda_handler secrets (backendOfPy b) env event).1,
             ((lambda_handler secrets (backendOfPy b) env event).2).map liftCall) := by
  cases hb : parseJson (event.body.getD emptyObjStr) with
  | none => simp [lambda_handler_py, lambda_handler, hb]
  | some pj =>
    have hconf := hbody pj hb
    have hv := verify_py_conforms secrets pj event.headers hconf
    cases hv1 : (verify_gitlab_signature secrets (toPayload pj) event.headers).1 with
    | false => simp [lambda_handler_py, lambda_handler, hb, hv, hv1]
    | true =>
      by_cases hk : (toPayload pj).object_kind = some "merge_request"
      · have hkpy : (match Json.getField pj "object_kind" with
            | some (Json.str s) => s == "merge_request"
            | _ => false) = true := (objectKindPy_eq pj).mpr hk
        have hlt := labelTitlesPy_conforms pj hconf
        have hsb := getThenGetPy_attrs pj hconf
        cases hc : parseJson (env.getD emptyObjStr) with
        | none => simp [lambda_handler_py, lambda_handler, hb, hv, hv1, hk, hkpy, hlt, hsb, hc]
        | some m =>
          have hm := hcfg m hc
          have hd := dispatchLabelsPy_lift b m hm (sourceBranch (toPayload pj))
            (labelTitles (toPayload pj))
          by_cases he : ((dispatchLabels (backendOfPy b) m (sourceBranch (toPayload pj))
              (labelTitles (toPayload pj))).1).isEmpty
          · simp [lambda_handler_py, lambda_handler, hb, hv, hv1, hk, hkpy, hlt, hsb, hc, hd, he]
          · simp [lambda_handler_py, lambda_handler, hb, hv, hv1, hk, hkpy, hlt, hsb, hc, hd, he]
      · have hkpy : (match Json.getField pj "object_kind" with
            | some (Json.str s) => s == "merge_request"
            | _ => false) = false := by
          cases hraw : (match Json.getField pj "object_kind" with
              | some (Json.str s) => s == "merge_request"
              | _ => false)
          · rfl
          · exact absurd ((objectKindPy_eq pj).mp hraw) hk
        simp [lambda_handler_py, lambda_handler, hb, hv, hv1, hk, hkpy]


/-- On every input the typed handler returns one of the six structured
responses of the design: a status code with a JSON body carrying an error, a
message or the triggered list. -/
theorem handler_always_structured (secrets : String → Option String)
    (backend : Json → List Variable → String) (env : Option String) (event : Event) :
    (lambda_handler secrets backend env event).1
        = ⟨400, Json.obj [("error", Json.str "Invalid JSON payload")], none⟩
    ∨ (∃ m, (lambda_handler secrets backend env event).1
        = ⟨403, Json.obj [("error", Json.str m)], none⟩)
    ∨ (lambda_handler secrets backend env event).1
        = ⟨200, Json.obj [("message", Json.str "Not a merge request event")], none⟩
    ∨ (lambda_handler secrets backend env event).1
        = ⟨500, Json.obj [("error", Json.str "Invalid LABEL_PIPELINE_MAPPING env var")], none⟩
    ∨ (lambda_handler secrets backend env event).1
        = ⟨200, Json.obj [("message", Json.str "No matching label for pipeline, skipped")],
           some [("Content-Type", "application/json")]⟩
    ∨ (∃ rs, rs ≠ []
        ∧ (lambda_handler secrets backend env event).1
          = ⟨200, Json.obj [("triggered_pipelines", Json.arr (rs.map TriggerResult.toJson))],
             some [("Content-Type", "application/json")]⟩) := by
  cases hb : parseJson (event.body.getD emptyObjStr) with
  | none => exact Or.inl (by simp [lambda_handler, hb])
  | some pj =>
    cases hv : (verify_gitlab_signature secrets (toPayload pj) event.headers).1 with
    | false =>
      obtain ⟨m, hm⟩ := verify_false_has_reason secrets (toPayload pj) event.headers hv
      exact Or.inr (Or.inl ⟨m, by simp [lambda_handler, hb, hv, hm, jsonOfOptStr]⟩)
    | true =>
      by_cases hk : (toPayload pj).object_kind = some "merge_request"
      · cases hc : parseJson (env.getD emptyObjStr) with
        | none =>
          exact Or.inr (Or.inr (Or.inr (Or.inl (by simp [lambda_handler, hb, hv, hk, hc]))))
        | some mapping =>
          by_cases he : ((dispatchLabels backend mapping (sourceBranch (toPayload pj))
              (labelTitles (toPayload pj))).1).isEmpty
          · exact Or.inr (Or.inr (Or.inr (Or.inr (Or.inl
              (by simp [lambda_handler, hb, hv, hk, hc, he])))))
          · refine Or.inr (Or.inr (Or.inr (Or.inr (Or.inr
              ⟨(dispatchLabels backend mapping (sourceBranch (toPayload pj))
                 (labelTitles (toPayload pj))).1, ?_, ?_⟩))))
            · intro h0
              rw [h0] at he
              exact he rfl
            · simp [lambda_handler, hb, hv, hk, hc, he]
      · exact Or.inr (Or.inr (Or.inl (by simp [lambda_handler, hb, hv, hk])))

set_option maxRecDepth 40000 in
/-- Claim C8 counterexample: two requests under recoverable conditions where
the program raises an uncaught exception instead of answering.  With the
configuration string null, which is valid JSON but not a mapping, the
scenario merge-request raises AttributeError at the first label lookup of
lambda.py line 94; with a string project field the request raises
AttributeError at line 28 during authentication.  The typed handler, total
by construction, answers the first input with a structured 200. -/
theorem C8_structured_counterexample :
    lambda_handler_py fixSecrets fixBackendPy (some "null") ⟨some mrBodyStr, tokenHeaders⟩
      = .error PyExn.attributeError
    ∧ parseJson "null" = some Json.null
    ∧ lambda_handler_py fixSecrets fixBackendPy none
        ⟨some "\x7b\"project\": \"g/p\"\x7d", tokenHeaders⟩
      = .error PyExn.attributeError
    ∧ lambda_handler fixSecrets (backendOfPy fixBackendPy) (some "null")
        ⟨some mrBodyStr, tokenHeaders⟩
      = (⟨200, Json.obj [("message", Json.str "No matching label for pipeline, skipped")],
          some [("Content-Type", "application/json")]⟩, []) :=
  ⟨rfl, rfl, rfl, rfl⟩

/-- Claim C8 as amended: for every request falling under a recoverable
condition — malformed JSON body, authentication failure, non-merge-request
event kind, unparsable label-pipeline configuration, or a valid
merge-request event whose labels match no configured pipeline — the handler
returns a structured response (a statusCode plus a JSON body with an
explanatory message) and raises no exception to the caller, provided the
parsed values have the shapes the code expects: the payload conforming (its
project and object_attributes fields, when present, objects with
absent-or-string path and branch, its labels, when present, a list of
objects with string titles) and the parsed configuration an object.  Outside
those shapes the late-bound accesses raise uncaught AttributeError,
TypeError or KeyError.  Only secret-store and pipeline-trigger backend
failures, the ambient function parameters of the model, may otherwise
propagate. -/
theorem C8_structured_no_exception_amended (secrets : String → Option String)
    (b : Json → List VariablePy → String) (env : Option String) (event : Event)
    (hbody : ∀ pj, parseJson (event.body.getD emptyObjStr) = some pj → payloadConforms pj = true)
    (hcfg : ∀ m, parseJson (env.getD emptyObjStr) = some m → m.isObj = true) :
    lambda_handler_py secrets b env event
      = .ok ((lambda_handler secrets (backendOfPy b) env event).1,
             ((lambda_handler secrets (backendOfPy b) env event).2).map liftCall)
    ∧ ((lambda_handler secrets (backendOfPy b) env event).1
        = ⟨400, Json.obj [("error", Json.str "Invalid JSON payload")], none⟩
      ∨ (∃ m, (lambda_handler secrets (backendOfPy b) env event).1
          = ⟨403, Json.obj [("error", Json.str m)], none⟩)
      ∨ (lambda_handler secrets (backendOfPy b) env event).1
          = ⟨200, Json.obj [("message", Json.str "Not a merge request event")], none⟩
      ∨ (lambda_handler secrets (backendOfPy b) env event).1
          = ⟨500, Json.obj [("error", Json.str "Invalid LABEL_PIPELINE_MAPPING env var")], none⟩
      ∨ (lambda_handler secrets (backendOfPy b) env event).1
          = ⟨200, Json.obj [("message", Json.str "No matching label for pipeline, skipped")],
             some [("Content-Type", "application/json")]⟩
      ∨ (∃ rs, rs ≠ []
          ∧ (lambda_handler secrets (backendOfPy b) env event).1
            = ⟨200, Json.obj [("triggered_pipelines", Json.arr (rs.map TriggerResult.toJson))],
               some [("Content-Type", "application/json")]⟩)) :=
  ⟨lambda_handler_py_conforms secrets b env event hbody hcfg,
   handler_always_structured secrets (backendOfPy b) env event⟩

set_option maxRecDepth 40000 in
/-- Claim C8 witness: on the conforming scenario request with the scenario
mapping, the raising handler returns exactly the typed handler output as a
structured 200, raising nothing. -/
theorem C8_structured_no_exception_amended_witness :
    lambda_handler_py fixSecrets fixBackendPy (some "\x7b\"q1\": \"PipelineQ1\"\x7d")
        ⟨some mrBodyStr, tokenHeaders⟩
      = .ok ((lambda_handler fixSecrets (backendOfPy fixBackendPy)
                (some "\x7b\"q1\": \"PipelineQ1\"\x7d") ⟨some mrBodyStr, tokenHeaders⟩).1,
             ((lambda_handler fixSecrets (backendOfPy fixBackendPy)
                (some "\x7b\"q1\": \"PipelineQ1\"\x7d") ⟨some mrBodyStr, tokenHeaders⟩).2).map liftCall) :=
  (C8_structured_no_exception_amended fixSecrets fixBackendPy
    (some "\x7b\"q1\": \"PipelineQ1\"\x7d") ⟨some mrBodyStr, tokenHeaders⟩
    (by
      intro pj h
      have he : parseJson mrBodyStr = some mrPayloadJson := rfl
      injection he.symm.trans h with h2
      rw [← h2]
      rfl)
    (by
      intro m h
      have he : parseJson "\x7b\"q1\": \"PipelineQ1\"\x7d"
          = some (Json.obj [("q1", Json.str "PipelineQ1")]) := rfl
      injection he.symm.trans h with h2
      rw [← h2]
      rfl)).1

/-- Claim C9: with no LABEL_PIPELINE_MAPPING in the environment the handler
behaves as with the empty mapping: the 500 configuration error is impossible,
and every authenticated merge-request event takes the no-match 200 outcome
with zero triggers. -/
theorem C9_missing_env_is_empty_mapping (secrets : String → Option String)
    (backend : Json → List Variable → String) (event : Event) :
    (lambda_handler secrets backend none event).1.statusCode ≠ 500
    ∧ ∀ pj, parseJson (event.body.getD emptyObjStr) = some pj →
        (verify_gitlab_signature secrets (toPayload pj) event.headers).1 = true →
        (toPayload pj).object_kind = some "merge_request" →
        lambda_handler secrets backend none event
          = (⟨200, Json.obj [("message", Json.str "No matching label for pipeline, skipped")],
              some [("Content-Type", "application/json")]⟩, []) := by
  constructor
  · cases hb : parseJson (event.body.getD emptyObjStr) with
    | none => simp [lambda_handler, hb]
    | some pj =>
      cases hv : (verify_gitlab_signature secrets (toPayload pj) event.headers).1 with
      | false => simp [lambda_handler, hb, hv]
      | true =>
        by_cases hk : (toPayload pj).object_kind = some "merge_request"
        · simp [lambda_handler, hb, hv, hk, parse_emptyObjStr, dispatchLabels_empty_mapping]
        · simp [lambda_handler, hb, hv, hk]
  · intro pj hb hv hk
    simp [lambda_handler, hb, hv, hk, parse_emptyObjStr, dispatchLabels_empty_mapping]

set_option maxRecDepth 40000 in
/-- Claim C9 witness: the scenario merge-request event with no mapping
environment variable takes the no-match outcome with zero triggers. -/
theorem C9_missing_env_is_empty_mapping_witness :
    lambda_handler fixSecrets fixBackend none ⟨some mrBodyStr, tokenHeaders⟩
      = (⟨200, Json.obj [("message", Json.str "No matching label for pipeline, skipped")],
          some [("Content-Type", "application/json")]⟩, []) :=
  (C9_missing_env_is_empty_mapping fixSecrets fixBackend ⟨some mrBodyStr, tokenHeaders⟩).2
    mrPayloadJson rfl rfl rfl


end Webhook
